import Mathlib

/-!
Verification of the ponto-os local media persistence and thumbnail-derivation
subsystem (a browser media-journal client, TypeScript/React).

Shallow embedding: the timeline index store (localStorage JSON document), the
blob store (IndexedDB key/value), the overflow migration, the change
notification event, the media reference resolver hook and the video thumbnail
pipeline are translated into pure Lean functions.  Browser effects are made
explicit:
  * localStorage.setItem outcomes are an oracle `st : Nat → List Entry →
    Option StoreErr` (attempt index, document written);
  * IndexedDB content is an oracle `store : String → Option String` (a blob is
    represented by an opaque string token);
  * URL.createObjectURL is an oracle `mkUrl : String → String`;
  * media element events (error / loadedmetadata), reported dimensions and
    canvas behaviour form a `VideoEnv` record, and the asynchronous pipeline
    result is a `ThumbOutcome` where `pending` means the promise never
    settles;
  * React effect lifecycles are modelled per effect run, with the moment the
    cleanup function runs (supersession / unmount) as an explicit parameter,
    and the run result records how many object URLs were minted and revoked,
    what was published to state, and which actions (writes, event dispatches)
    happened.
-/

namespace Ponto

/-- The mediaType field of an entry: the union "photo" | "video"
(src/app/page.tsx). -/
inductive MediaType
  | photo
  | video
deriving DecidableEq, Repr

/-- One text block of an entry (src/app/page.tsx, TextBlock). -/
structure TextBlock where
  id : String
  createdAt : String
  content : String
deriving DecidableEq, Repr

/-- One timeline entry (src/app/page.tsx, Entry).  thumbUri is optional in the
source (string | undefined), hence Option String here; mediaUri is either a
data URL or an idb:<key> reference, kept as a plain string exactly as the
source keeps it. -/
structure Entry where
  id : String
  createdAt : String
  mediaType : MediaType
  mediaUri : String
  thumbUri : Option String
  textBlocks : List TextBlock
deriving DecidableEq, Repr

/-- The fixed storage key of the timeline index document
(KEY = "ponto.timeline.v1" in the source). -/
def timelineKey : String := "ponto.timeline.v1"

/-- The change notification event name (EVT = "ponto-timeline-updated"). -/
def timelineEvt : String := "ponto-timeline-updated"

/-- The semantics of the JS String.prototype.startsWith the source relies on
for reference sniffing: the second string is a prefix of the first.  (Stated
over the character lists so that concrete instances evaluate in the kernel.) -/
def strStartsWith (s p : String) : Bool := p.data.isPrefixOf s.data

/-- The semantics of the JS String.prototype.trim the source applies to note
drafts: strip leading and trailing whitespace. -/
def strTrim (s : String) : String :=
  ⟨((s.data.dropWhile Char.isWhitespace).reverse.dropWhile
      Char.isWhitespace).reverse⟩

/-- mediaStore.ts isIdbUri: string-prefix test for a blob store reference. -/
def isIdbUri (uri : String) : Bool := strStartsWith uri "idb:"

/-- mediaStore.ts toIdbUri: tag a blob store key as a media reference. -/
def toIdbUri (key : String) : String := "idb:" ++ key

/-- mediaStore.ts getMedia: one IndexedDB get.  `store` is the database
content (key to blob token), `dbFails` models the transaction erroring
(onerror, which rejects).  On success the request result is
`(request.result as Blob | undefined) ?? null`: a missing key succeeds with
undefined and is collapsed to null, never an error. -/
def getMedia (store : String → Option String) (dbFails : Bool) (key : String) :
    Except Unit (Option String) :=
  if dbFails then Except.error () else Except.ok (store key)

/-- A JSON value, for the persisted timeline document.  The source parses with
JSON.parse and only checks Array.isArray; elements are not validated, so
readTimeline is modelled at the JSON level. -/
inductive Json
  | null
  | bool (b : Bool)
  | num (n : Int)
  | str (s : String)
  | arr (elems : List Json)
  | obj (fields : List (String × Json))

/-- readTimeline (src/app/page.tsx and the identical copies in VideoThumb.tsx
and EntryClient.tsx): read the raw slot, JSON.parse it inside try/catch, and
return the parsed value only when it is an array, else [].  `parse` models
JSON.parse (none = the parse threw), `slot` the stored string (none = key
absent).  A present but empty string is falsy in the source (`raw ? ... : []`)
and yields [] without parsing. -/
def readTimeline (parse : String → Option Json) (slot : Option String) :
    List Json :=
  match slot with
  | none => []
  | some raw =>
    if raw = "" then []
    else
      match parse raw with
      | none => []
      | some (Json.arr xs) => xs
      | some _ => []

/-- One run of the useResolvedMediaUrl effect, summarised
(src/app/lib/useResolvedMediaUrl.ts).  published: the value passed to setUrl,
none when the run was superseded and its result discarded; warns: number of
console.warn calls; mints / revokes: object URLs created by the run and
revoke calls made for them by the time the interest of the caller has ended
(the cleanup function). -/
structure HookRun where
  published : Option (Option String)
  warns : Nat
  mints : Nat
  revokes : Nat
deriving DecidableEq, Repr

/-- useResolvedMediaUrl, one effect run (src/app/lib/useResolvedMediaUrl.ts).
`cancelDuringFetch` is true when the cleanup ran (unmount or mediaUri change)
while the run was suspended on getMedia: the run then checks `active`, returns
before minting anything, and the cleanup saw objectUrl still null, so nothing
is revoked.  Otherwise: a non-idb uri is published as-is (nothing owned); a
missing blob publishes null with one warning; a found blob mints one object
URL, publishes it, and the cleanup revokes it exactly once when the interest
ends. -/
def useResolvedMediaUrlRun (store : String → Option String)
    (mkUrl : String → String) (mediaUri : Option String)
    (cancelDuringFetch : Bool) : HookRun :=
  match mediaUri with
  | none => ⟨some none, 0, 0, 0⟩
  | some uri =>
    if isIdbUri uri = false then ⟨some (some uri), 0, 0, 0⟩
    else if cancelDuringFetch then ⟨none, 0, 0, 0⟩
    else
      match store (uri.drop 4) with
      | none => ⟨some none, 1, 0, 0⟩
      | some b => ⟨some (some (mkUrl b)), 0, 1, 1⟩

/-- The environment a video element presents to the thumbnail pipeline:
which of the events the pipeline listens for ever fire, the reported
dimensions, and canvas behaviour.  setupThrows: the synchronous setup inside
the outer try throws; errorFirst: the error event fires before loadedmetadata
would; durationFinitePos: isFinite(duration) and duration greater than zero
(decides seek target, it does not change the settled value); ctxOk:
canvas.getContext("2d") returns a context; drawThrows: drawImage or toDataURL
throws (caught by the handler, which then finishes with null); encode w h:
the toDataURL result for the w by h surface holding the current frame. -/
structure VideoEnv where
  setupThrows : Bool
  metadataFires : Bool
  errorFires : Bool
  errorFirst : Bool
  durationFinitePos : Bool
  videoWidth : Nat
  videoHeight : Nat
  ctxOk : Bool
  drawThrows : Bool
  encode : Nat → Nat → String

/-- The fate of the promise returned by a thumbnail generator: pending means
no finish path was ever reached, so the promise never settles. -/
inductive ThumbOutcome
  | pending
  | resolved (thumb : Option String)
deriving DecidableEq, Repr

/-- The body of the loadedmetadata handler after the bounded waits (seeked or
loadeddata, both raced against a timeout, so the handler always gets here):
`video.videoWidth || 1280` and `video.videoHeight || 720` substitute defaults
for zero, the (now unreachable) zero guard, getContext, drawImage and
toDataURL.  Shared verbatim by both generator copies. -/
def drawFrame (env : VideoEnv) : Option String :=
  let w := if env.videoWidth = 0 then 1280 else env.videoWidth
  let h := if env.videoHeight = 0 then 720 else env.videoHeight
  if w = 0 ∨ h = 0 then none
  else if env.ctxOk = false then none
  else if env.drawThrows then none
  else some (env.encode w h)

/-- makeVideoThumbFromUrl (src/app/components/VideoThumb.tsx).  The promise
settles only through finish, which is reached from the error handler, from
the loadedmetadata handler (whose internal waits are timeout-bounded and whose
body is wrapped in try/catch resolving null), or from the outer catch.  The
waits on loadedmetadata and error themselves carry no timeout: when neither
event ever fires, no finish path runs and the promise stays pending. -/
def makeVideoThumbFromUrl (env : VideoEnv) : ThumbOutcome :=
  if env.setupThrows then ThumbOutcome.resolved none
  else if env.errorFires && env.errorFirst then ThumbOutcome.resolved none
  else if env.metadataFires then ThumbOutcome.resolved (drawFrame env)
  else if env.errorFires then ThumbOutcome.resolved none
  else ThumbOutcome.pending

/-- makeVideoThumbnailFromUrl (src/app/page.tsx, capture page): the same
control flow as makeVideoThumbFromUrl, with shorter wait timeouts (500ms
rather than 1500ms) and no settle delay, neither of which changes which finish
path is reached. -/
def makeVideoThumbnailFromUrl (env : VideoEnv) : ThumbOutcome :=
  if env.setupThrows then ThumbOutcome.resolved none
  else if env.errorFires && env.errorFirst then ThumbOutcome.resolved none
  else if env.metadataFires then ThumbOutcome.resolved (drawFrame env)
  else if env.errorFires then ThumbOutcome.resolved none
  else ThumbOutcome.pending

/-- Result of resolveVideoUrl (src/app/components/VideoThumb.tsx): an owned
object URL (minted from an IndexedDB blob, possibly re-wrapped with a fallback
MIME type first), a borrowed plain URL (a data URL used as-is), or null (blob
missing, stale blob: URL from a previous session, or unrecognized format). -/
inductive Resolved
  | ownedUrl (url : String)
  | plainUrl (url : String)
  | unresolved
deriving DecidableEq, Repr

/-- resolveVideoUrl (src/app/components/VideoThumb.tsx).  For an idb: uri the
blob is fetched; when found, an object URL is minted (owned: true); the
re-wrap of an untyped blob with FALLBACK_MIME_TYPES[0] is folded into the blob
token passed to mkUrl.  A data: uri is returned as-is (owned: false).  A
stale blob: uri and any other format resolve to null with a warning. -/
def resolveVideoUrl (store : String → Option String) (mkUrl : String → String)
    (mediaUri : String) : Resolved :=
  if isIdbUri mediaUri then
    match store (mediaUri.drop 4) with
    | none => Resolved.unresolved
    | some b => Resolved.ownedUrl (mkUrl b)
  else if strStartsWith mediaUri "data:" then Resolved.plainUrl mediaUri
  else Resolved.unresolved

/-- When the cleanup of the VideoThumb generation effect runs relative to the
awaits of the run: during resolveVideoUrl (suspended on getMedia), during
makeVideoThumbFromUrl, or only after the run completed (unmount later). -/
inductive VTCancel
  | duringResolve
  | duringThumb
  | afterDone
deriving DecidableEq, Repr

/-- One run of the VideoThumb thumbnail-generation effect
(src/app/components/VideoThumb.tsx, the useEffect around run()). -/
structure VTRun where
  entryHasThumb : Bool
  mediaType : MediaType
  mediaUri : String
  store : String → Option String
  mkUrl : String → String
  thumbResult : Option String
  cancel : VTCancel

/-- Summary of one VideoThumb effect run: minted and revoked object URLs (by
the time interest ends), the value published via setThumb (none when nothing
was published or the cancelled-check discarded the result), and whether
writeBackThumb ran. -/
structure VTRes where
  mints : Nat
  revokes : Nat
  published : Option String
  wroteBack : Bool
deriving DecidableEq, Repr

/-- The VideoThumb effect run (src/app/components/VideoThumb.tsx).  run()
returns at once when a thumb is already shown or the entry is not a video.
resolveVideoUrl mints the object URL for an idb: source with no cancellation
check, and run() stores it into objectUrlRef only after resuming; the cleanup
revokes whatever the ref holds when it runs.  So: cancelled during resolve,
the cleanup (already past) saw a null ref and the minted URL is stored
afterwards with nobody left to revoke it (one mint, zero revokes); cancelled
during the thumbnail pipeline, the cleanup revokes the stored URL exactly
once and the `if cancelled` check discards the result; not cancelled, the
result is published, written back when non-null, and the unmount cleanup
revokes the stored URL exactly once. -/
def videoThumbRun (r : VTRun) : VTRes :=
  if r.entryHasThumb then ⟨0, 0, none, false⟩
  else
    match r.mediaType with
    | MediaType.photo => ⟨0, 0, none, false⟩
    | MediaType.video =>
      match resolveVideoUrl r.store r.mkUrl r.mediaUri with
      | Resolved.unresolved => ⟨0, 0, none, false⟩
      | Resolved.plainUrl _ =>
        match r.cancel, r.thumbResult with
        | VTCancel.afterDone, some t => ⟨0, 0, some t, true⟩
        | _, _ => ⟨0, 0, none, false⟩
      | Resolved.ownedUrl _ =>
        match r.cancel with
        | VTCancel.duringResolve => ⟨1, 0, none, false⟩
        | VTCancel.duringThumb => ⟨1, 1, none, false⟩
        | VTCancel.afterDone =>
          match r.thumbResult with
          | some t => ⟨1, 1, some t, true⟩
          | none => ⟨1, 1, none, false⟩

/-- An observable action of a timeline mutation: a localStorage.setItem of a
whole index document, or a dispatch of the change notification event
(window.dispatchEvent(new Event(EVT))). -/
inductive Act
  | setItem (doc : List Entry)
  | dispatchEvt
deriving DecidableEq, Repr

/-- The pure core of writeBackThumb (src/app/components/VideoThumb.tsx):
list.map over the index, replacing thumbUri on the entries whose id matches
and leaving every other entry untouched. -/
def applyThumbWriteBack (list : List Entry) (entryId thumbUri : String) :
    List Entry :=
  list.map fun e =>
    if e.id = entryId then { e with thumbUri := some thumbUri } else e

/-- writeBackThumb (src/app/components/VideoThumb.tsx): map the thumbnail onto
the matching entry of the freshly read index (`list` is what readTimeline
returned), write the whole document back, then dispatch the change event.
Returns the written document and the action trace in order. -/
def writeBackThumb (list : List Entry) (entryId thumbUri : String) :
    List Entry × List Act :=
  let next := applyThumbWriteBack list entryId thumbUri
  (next, [Act.setItem next, Act.dispatchEvt])

/-- writeTimeline (src/app/entry/[id]/EntryClient.tsx): one setItem of the
whole document followed by the change event dispatch. -/
def entryWriteTimeline (list : List Entry) : List Act :=
  [Act.setItem list, Act.dispatchEvt]

/-- How one localStorage.setItem attempt fails: a storage quota (overflow)
DOMException recognised by isQuotaExceeded (src/app/page.tsx), or any other
exception. -/
inductive StoreErr
  | quota
  | other
deriving DecidableEq, Repr

/-- The JavaScript falsiness of a thumbUri value (`!thumbUri`): undefined and
the empty string are both falsy. -/
def thumbFalsy : Option String → Bool
  | none => true
  | some s => s = ""

/-- Migration of a single entry, the loop body of migrateTimelineMedia
(src/app/page.tsx, capture page).  Only an entry whose mediaUri starts with
"data:" is touched.  mOk covers the fallible steps of the try block
(dataUrlToBlob and putMedia): when false the catch keeps the original entry.
thumbOf models makePhotoThumbFromDataUrl (null collapsed to undefined by
`?? undefined`); it is consulted only for a photo with a falsy thumbUri.  On
success mediaUri becomes the idb: reference of the entry id. -/
def migrateEntry (mOk : Entry → Bool) (thumbOf : String → Option String)
    (e : Entry) : Entry :=
  if strStartsWith e.mediaUri "data:" then
    if mOk e then
      { e with
        mediaUri := toIdbUri e.id
        thumbUri :=
          if thumbFalsy e.thumbUri && e.mediaType == MediaType.photo then
            thumbOf e.mediaUri
          else e.thumbUri }
    else e
  else e

/-- migrateTimelineMedia (src/app/page.tsx, capture page): the per-entry
migration applied over the whole document (the source accumulates into
`updated` with push; that loop is this map). -/
def migrateTimelineMedia (mOk : Entry → Bool) (thumbOf : String → Option String)
    (entries : List Entry) : List Entry :=
  entries.map (migrateEntry mOk thumbOf)

/-- writeTimeline (src/app/page.tsx, capture page).  st models the outcome of
each localStorage.setItem call (attempt index, document written): the first
attempt writes `entries`; on success writeTimeline returns; a non-quota
exception is re-thrown at once (no migration); a quota error triggers
migrateTimelineMedia over the whole document and exactly one retried setItem
of the migrated document, outside any try, so the retried attempt's failure of
either kind propagates to the caller.  Returns the outcome and the trace of
setItem attempts; note that no change event is ever dispatched here. -/
def captureWriteTimeline (st : Nat → List Entry → Option StoreErr)
    (mOk : Entry → Bool) (thumbOf : String → Option String)
    (entries : List Entry) : Except StoreErr Unit × List Act :=
  match st 0 entries with
  | none => (Except.ok (), [Act.setItem entries])
  | some StoreErr.other => (Except.error StoreErr.other, [Act.setItem entries])
  | some StoreErr.quota =>
    let m := migrateTimelineMedia mOk thumbOf entries
    match st 1 m with
    | none => (Except.ok (), [Act.setItem entries, Act.setItem m])
    | some e => (Except.error e, [Act.setItem entries, Act.setItem m])

/-- The textBlocks produced by onSaveNotes (src/app/entry/[id]/EntryClient.tsx):
content is the trimmed draft; an empty (falsy) content clears the list; a
non-empty content replaces the content of the first existing block, keeping
its id and createdAt and discarding every later block, or creates a single
fresh block (newId, now) when none existed. -/
def saveNotesBlocks (existing : List TextBlock) (draft newId now : String) :
    List TextBlock :=
  let content := strTrim draft
  if content = "" then []
  else
    match existing with
    | [] => [⟨newId, now, content⟩]
    | b :: _ => [{ b with content := content }]

/-- The entry written by onSaveNotes in place of the matched entry: the spread
`{ ...list[idx], textBlocks := ... }`, every other field untouched. -/
def onSaveNotesEntry (e : Entry) (draft newId now : String) : Entry :=
  { e with textBlocks := saveNotesBlocks e.textBlocks draft newId now }

/-- Sample video entry still carrying an inline (data URL) media reference,
as appended by onSave before any migration. -/
def sampleInlineVideo : Entry :=
  ⟨"e1", "2026-01-02T03:04:05Z", MediaType.video, "data:video/webm;base64,AAAA",
    none, []⟩

/-- Sample entry already migrated to a blob store reference. -/
def sampleIdbPhoto : Entry :=
  ⟨"e2", "2026-01-02T03:04:06Z", MediaType.photo, "idb:e2",
    some "data:image/jpeg;base64,BBBB", []⟩

/-- A setItem oracle under which every write attempt overflows the quota. -/
def alwaysQuota : Nat → List Entry → Option StoreErr :=
  fun _ _ => some StoreErr.quota

/-- A setItem oracle under which every write attempt succeeds. -/
def alwaysOkStore : Nat → List Entry → Option StoreErr := fun _ _ => none

/-- A video environment whose element never fires loadedmetadata nor error
(for example a source URL whose fetch stalls forever). -/
def silentVideoEnv : VideoEnv :=
  ⟨false, false, false, false, false, 0, 0, true, false,
    fun w h => toString w ++ "x" ++ toString h⟩

/-- A video environment reporting duration 0 and zero dimensions, with
metadata arriving normally and a working canvas. -/
def zeroDimsEnv : VideoEnv :=
  ⟨false, true, false, false, false, 0, 0, true, false,
    fun w h => toString w ++ "x" ++ toString h⟩

/-- A VideoThumb effect run over an idb-referenced video whose blob exists,
superseded while resolveVideoUrl was suspended on the blob fetch. -/
def supersededDuringResolve : VTRun :=
  ⟨false, MediaType.video, "idb:e1", fun _ => some "payload",
    fun _ => "blob-url-1", some "thumb-1", VTCancel.duringResolve⟩

/-- C7: reading the timeline index never fails: an absent slot, a slot whose
text JSON.parse rejects, and valid JSON that is not an array all yield the
empty sequence rather than a propagated parse failure, and a slot holding a
JSON array yields exactly that array of entries. -/
theorem readTimeline_total_behavior (parse : String → Option Json)
    (raw : String) :
    readTimeline parse none = [] ∧
    (parse raw = none → readTimeline parse (some raw) = []) ∧
    (∀ j, parse raw = some j → (∀ xs, j ≠ Json.arr xs) →
      readTimeline parse (some raw) = []) ∧
    (∀ xs, raw ≠ "" → parse raw = some (Json.arr xs) →
      readTimeline parse (some raw) = xs) := by
  refine ⟨rfl, fun hp => ?_, fun j hj hnarr => ?_, fun xs hraw hp => ?_⟩
  · by_cases h : raw = "" <;> simp [readTimeline, h, hp]
  · by_cases h : raw = ""
    · simp [readTimeline, h]
    · cases j with
      | arr xs => exact absurd rfl (hnarr xs)
      | null => simp [readTimeline, h, hj]
      | bool b => simp [readTimeline, h, hj]
      | num n => simp [readTimeline, h, hj]
      | str s => simp [readTimeline, h, hj]
      | obj fields => simp [readTimeline, h, hj]
  · simp [readTimeline, hraw, hp]

/-- C9: the thumbnail write-back changes only the thumbUri of the entries
whose id matches: the document keeps its length, every entry with a different
id is unchanged, and a matched entry changes in no field but thumbUri. -/
theorem writeBackThumb_frame (list : List Entry) (eid t : String) (i : Nat) :
    (writeBackThumb list eid t).1 = applyThumbWriteBack list eid t ∧
    (applyThumbWriteBack list eid t).length = list.length ∧
    (∀ e, list[i]? = some e → e.id ≠ eid →
      (applyThumbWriteBack list eid t)[i]? = some e) ∧
    (∀ e, list[i]? = some e → e.id = eid →
      (applyThumbWriteBack list eid t)[i]? =
        some { e with thumbUri := some t }) := by
  refine ⟨rfl, List.length_map _ _, fun e he hne => ?_, fun e he hm => ?_⟩
  · simp [applyThumbWriteBack, List.getElem?_map, he, hne]
  · simp [applyThumbWriteBack, List.getElem?_map, he, hm]

/-- C10: after onSaveNotes the textBlocks sequence has length at most one; a
draft that trims to nothing yields the empty sequence; a non-empty draft
yields one block holding the trimmed draft, reusing the first existing block
(same id and createdAt, only content replaced, later blocks discarded) or
freshly created when none existed; every other field of the entry is kept. -/
theorem saveNotes_textBlocks_spec (e : Entry) (draft newId now : String) :
    (onSaveNotesEntry e draft newId now).textBlocks.length ≤ 1 ∧
    (strTrim draft = "" → (onSaveNotesEntry e draft newId now).textBlocks = []) ∧
    (strTrim draft ≠ "" → e.textBlocks = [] →
      (onSaveNotesEntry e draft newId now).textBlocks
        = [⟨newId, now, strTrim draft⟩]) ∧
    (∀ b rest, strTrim draft ≠ "" → e.textBlocks = b :: rest →
      (onSaveNotesEntry e draft newId now).textBlocks
        = [{ b with content := strTrim draft }]) ∧
    (onSaveNotesEntry e draft newId now).id = e.id ∧
    (onSaveNotesEntry e draft newId now).createdAt = e.createdAt ∧
    (onSaveNotesEntry e draft newId now).mediaType = e.mediaType ∧
    (onSaveNotesEntry e draft newId now).mediaUri = e.mediaUri ∧
    (onSaveNotesEntry e draft newId now).thumbUri = e.thumbUri := by
  refine ⟨?_, fun h0 => ?_, fun h0 hnil => ?_, fun b rest h0 hcons => ?_,
    rfl, rfl, rfl, rfl, rfl⟩
  · by_cases h : strTrim draft = ""
    · simp [onSaveNotesEntry, saveNotesBlocks, h]
    · cases hb : e.textBlocks with
      | nil => simp [onSaveNotesEntry, saveNotesBlocks, h, hb]
      | cons b rest => simp [onSaveNotesEntry, saveNotesBlocks, h, hb]
  · simp [onSaveNotesEntry, saveNotesBlocks, h0]
  · simp [onSaveNotesEntry, saveNotesBlocks, h0, hnil]
  · simp [onSaveNotesEntry, saveNotesBlocks, h0, hcons]

/-- C6: running the overflow migration over an index in which no entry still
carries an inline (data URL) media reference is a no-op: the returned list is
the input list, so a second run after a completed migration changes nothing. -/
theorem migrate_already_migrated_noop (mOk : Entry → Bool)
    (thumbOf : String → Option String) (entries : List Entry)
    (h : ∀ e ∈ entries, strStartsWith e.mediaUri "data:" = false) :
    migrateTimelineMedia mOk thumbOf entries = entries := by
  induction entries with
  | nil => rfl
  | cons e rest ih =>
    have he : strStartsWith e.mediaUri "data:" = false :=
      h e (List.mem_cons_self e rest)
    have hrest : ∀ x ∈ rest, strStartsWith x.mediaUri "data:" = false :=
      fun x hx => h x (List.mem_cons_of_mem e hx)
    simp [migrateTimelineMedia, List.map_cons, migrateEntry, he] at ih ⊢
    exact ih hrest

/-- C6 witness: the no-op at a concrete already-migrated one-entry index. -/
theorem migrate_already_migrated_noop_witness :
    migrateTimelineMedia (fun _ => true) (fun _ => none) [sampleIdbPhoto]
      = [sampleIdbPhoto] :=
  migrate_already_migrated_noop (fun _ => true) (fun _ => none)
    [sampleIdbPhoto] (by decide)

/-- C1: when the first setItem of the index overflows the quota, writeTimeline
migrates the whole document and retries the write exactly once (the trace is
exactly two setItem calls, the second over the migrated document); a failure
of that retried write propagates to the caller; a first write succeeding
returns at once; and a non-quota first failure propagates immediately with no
migration attempted (a single setItem in the trace). -/
theorem writeTimeline_overflow_retry (st : Nat → List Entry → Option StoreErr)
    (mOk : Entry → Bool) (thumbOf : String → Option String)
    (entries : List Entry) :
    (st 0 entries = some StoreErr.quota →
      (captureWriteTimeline st mOk thumbOf entries).2
          = [Act.setItem entries,
             Act.setItem (migrateTimelineMedia mOk thumbOf entries)] ∧
      (st 1 (migrateTimelineMedia mOk thumbOf entries) = none →
        (captureWriteTimeline st mOk thumbOf entries).1 = Except.ok ()) ∧
      (∀ e, st 1 (migrateTimelineMedia mOk thumbOf entries) = some e →
        (captureWriteTimeline st mOk thumbOf entries).1 = Except.error e)) ∧
    (st 0 entries = none →
      (captureWriteTimeline st mOk thumbOf entries).1 = Except.ok () ∧
      (captureWriteTimeline st mOk thumbOf entries).2
          = [Act.setItem entries]) ∧
    (∀ e, st 0 entries = some e → e ≠ StoreErr.quota →
      (captureWriteTimeline st mOk thumbOf entries).1 = Except.error e ∧
      (captureWriteTimeline st mOk thumbOf entries).2
          = [Act.setItem entries]) := by
  refine ⟨fun hq => ?_, fun hok => ?_, fun e he hne => ?_⟩
  · cases h1 : st 1 (migrateTimelineMedia mOk thumbOf entries) with
    | none =>
      refine ⟨?_, fun _ => ?_, fun e hcontra => ?_⟩
      · simp [captureWriteTimeline, hq, h1]
      · simp [captureWriteTimeline, hq, h1]
      · cases hcontra
    | some e0 =>
      refine ⟨?_, fun hcontra => ?_, fun e hsome => ?_⟩
      · simp [captureWriteTimeline, hq, h1]
      · cases hcontra
      · injection hsome with hE
        subst hE
        simp [captureWriteTimeline, hq, h1]
  · simp [captureWriteTimeline, hok]
  · cases e with
    | quota => exact absurd rfl hne
    | other => simp [captureWriteTimeline, he]

/-- C1 witness: with both write attempts overflowing, the save of one inline
video entry migrates, retries once, and surfaces the second overflow. -/
theorem writeTimeline_overflow_retry_witness :
    (captureWriteTimeline alwaysQuota (fun _ => true) (fun _ => none)
        [sampleInlineVideo]).1 = Except.error StoreErr.quota ∧
    (captureWriteTimeline alwaysQuota (fun _ => true) (fun _ => none)
        [sampleInlineVideo]).2
      = [Act.setItem [sampleInlineVideo],
         Act.setItem (migrateTimelineMedia (fun _ => true) (fun _ => none)
            [sampleInlineVideo])] := by
  have h := writeTimeline_overflow_retry alwaysQuota (fun _ => true)
    (fun _ => none) [sampleInlineVideo]
  exact ⟨(h.1 rfl).2.2 StoreErr.quota rfl, (h.1 rfl).1⟩

/-- C4 counterexample: a successful capture-save write (first setItem
succeeds) dispatches no change notification event: the capture page copy of
writeTimeline never fires EVT on any path. -/
theorem capture_save_no_change_event :
    (captureWriteTimeline alwaysOkStore (fun _ => true) (fun _ => none)
        [sampleInlineVideo]).1 = Except.ok () ∧
    Act.dispatchEvt ∉
      (captureWriteTimeline alwaysOkStore (fun _ => true) (fun _ => none)
        [sampleInlineVideo]).2 := by
  refine ⟨rfl, ?_⟩
  simp [captureWriteTimeline, alwaysOkStore]

/-- C4 (amended): the thumbnail write-back and the notes-edit write each
dispatch the change notification right after their successful whole-document
write, but the capture-save append path (the capture page writeTimeline)
dispatches no change notification on any of its outcomes. -/
theorem change_event_after_write (list : List Entry) (eid t : String)
    (st : Nat → List Entry → Option StoreErr) (mOk : Entry → Bool)
    (thumbOf : String → Option String) (entries : List Entry) :
    (writeBackThumb list eid t).2
        = [Act.setItem (applyThumbWriteBack list eid t), Act.dispatchEvt] ∧
    entryWriteTimeline list = [Act.setItem list, Act.dispatchEvt] ∧
    Act.dispatchEvt ∉ (captureWriteTimeline st mOk thumbOf entries).2 := by
  refine ⟨rfl, rfl, ?_⟩
  cases h0 : st 0 entries with
  | none => simp [captureWriteTimeline, h0]
  | some e =>
    cases e with
    | other => simp [captureWriteTimeline, h0]
    | quota =>
      cases h1 : st 1 (migrateTimelineMedia mOk thumbOf entries) with
      | none => simp [captureWriteTimeline, h0, h1]
      | some e2 => simp [captureWriteTimeline, h0, h1]

/-- C2 counterexample: a source URL whose media element never fires
loadedmetadata nor error leaves both thumbnail generator promises pending
forever: the wait for those two events carries no timeout. -/
theorem thumb_pipeline_hangs_without_events :
    makeVideoThumbFromUrl silentVideoEnv = ThumbOutcome.pending ∧
    makeVideoThumbnailFromUrl silentVideoEnv = ThumbOutcome.pending :=
  ⟨rfl, rfl⟩

/-- C2 (amended): the waits inside the loadedmetadata handler (seeked,
loadeddata) are timeout-bounded, so whenever the media element fires
loadedmetadata or error both generators settle; only the unbounded outer wait
for those two events can leave the promise pending. -/
theorem thumb_pipeline_resolves_on_media_events (env : VideoEnv)
    (h : env.metadataFires = true ∨ env.errorFires = true) :
    makeVideoThumbFromUrl env ≠ ThumbOutcome.pending ∧
    makeVideoThumbnailFromUrl env ≠ ThumbOutcome.pending := by
  constructor
  · simp only [makeVideoThumbFromUrl]
    split_ifs with h1 h2 h3 h4 <;> simp_all
  · simp only [makeVideoThumbnailFromUrl]
    split_ifs with h1 h2 h3 h4 <;> simp_all

/-- C2 witness: at a concrete environment whose element fires loadedmetadata,
both generators settle. -/
theorem thumb_pipeline_resolves_on_media_events_witness :
    makeVideoThumbFromUrl zeroDimsEnv ≠ ThumbOutcome.pending ∧
    makeVideoThumbnailFromUrl zeroDimsEnv ≠ ThumbOutcome.pending :=
  thumb_pipeline_resolves_on_media_events zeroDimsEnv (Or.inl rfl)

/-- C5 counterexample: with metadata reporting duration 0 and zero
dimensions, neither generator resolves to "no thumbnail": the zero-dimension
guard is defeated by the 1280 and 720 fallbacks, and a frame is encoded from
a default 1280x720 surface rather than the (zero) native resolution. -/
theorem zero_dims_still_encodes_default_surface :
    makeVideoThumbFromUrl zeroDimsEnv
        = ThumbOutcome.resolved (some "1280x720") ∧
    makeVideoThumbnailFromUrl zeroDimsEnv
        = ThumbOutcome.resolved (some "1280x720") ∧
    ThumbOutcome.resolved (some "1280x720") ≠ ThumbOutcome.resolved none := by
  refine ⟨by decide, by decide, by decide⟩

/-- C5 (amended): once metadata has arrived, with a working drawing context
and no draw error, the pipeline always encodes a frame: onto a surface at the
native resolution when both reported dimensions are non-zero, and onto a
default 1280x720 surface when both are zero (the zero-dimension guard is
unreachable), resolving with that encoding rather than with "no thumbnail". -/
theorem thumb_draw_surface_dims (env : VideoEnv)
    (hs : env.setupThrows = false) (he : env.errorFires = false)
    (hm : env.metadataFires = true) (hc : env.ctxOk = true)
    (hd : env.drawThrows = false) :
    (env.videoWidth ≠ 0 → env.videoHeight ≠ 0 →
      makeVideoThumbFromUrl env
          = ThumbOutcome.resolved
              (some (env.encode env.videoWidth env.videoHeight)) ∧
      makeVideoThumbnailFromUrl env
          = ThumbOutcome.resolved
              (some (env.encode env.videoWidth env.videoHeight))) ∧
    (env.videoWidth = 0 → env.videoHeight = 0 →
      makeVideoThumbFromUrl env
          = ThumbOutcome.resolved (some (env.encode 1280 720)) ∧
      makeVideoThumbnailFromUrl env
          = ThumbOutcome.resolved (some (env.encode 1280 720))) := by
  refine ⟨fun hw hh => ?_, fun hw hh => ?_⟩ <;>
    constructor <;>
      simp [makeVideoThumbFromUrl, makeVideoThumbnailFromUrl, drawFrame,
        hs, he, hm, hc, hd, hw, hh]

/-- C5 witness: the zero-dimension branch at the concrete zeroDimsEnv. -/
theorem thumb_draw_surface_dims_witness :
    makeVideoThumbFromUrl zeroDimsEnv
        = ThumbOutcome.resolved (some (zeroDimsEnv.encode 1280 720)) ∧
    makeVideoThumbnailFromUrl zeroDimsEnv
        = ThumbOutcome.resolved (some (zeroDimsEnv.encode 1280 720)) :=
  (thumb_draw_surface_dims zeroDimsEnv rfl rfl rfl rfl rfl).2 rfl rfl

/-- C3 counterexample: a VideoThumb effect run superseded while the blob
fetch was in flight mints its object URL only after its cleanup has already
run: one handle minted, zero release calls ever, so the exactly-once release
guarantee fails on the supersession path. -/
theorem videoThumb_leak_on_cancel_during_resolve :
    (videoThumbRun supersededDuringResolve).mints = 1 ∧
    (videoThumbRun supersededDuringResolve).revokes = 0 := by
  exact ⟨by decide, by decide⟩

/-- C3 (amended): the media reference resolver hook revokes exactly as many
handles as it mints on every exit path (success, failure, supersession; at
most one handle per run) and discards a superseded result instead of
publishing it; the VideoThumb component does the same whenever its run is not
superseded during source resolution, and also discards superseded results,
but a run superseded during source resolution mints one handle that receives
zero release calls. -/
theorem handle_release_discipline (store : String → Option String)
    (mkUrl : String → String) (mediaUri : Option String) (c : Bool)
    (uri : String) (r : VTRun) :
    ((useResolvedMediaUrlRun store mkUrl mediaUri c).revokes
        = (useResolvedMediaUrlRun store mkUrl mediaUri c).mints) ∧
    ((useResolvedMediaUrlRun store mkUrl mediaUri c).mints ≤ 1) ∧
    (isIdbUri uri = true →
      (useResolvedMediaUrlRun store mkUrl (some uri) true).published
        = none) ∧
    (r.cancel ≠ VTCancel.duringResolve →
      (videoThumbRun r).revokes = (videoThumbRun r).mints) ∧
    (r.cancel ≠ VTCancel.afterDone →
      (videoThumbRun r).published = none ∧
      (videoThumbRun r).wroteBack = false) := by
  have hook : ((useResolvedMediaUrlRun store mkUrl mediaUri c).revokes
        = (useResolvedMediaUrlRun store mkUrl mediaUri c).mints) ∧
      (useResolvedMediaUrlRun store mkUrl mediaUri c).mints ≤ 1 := by
    cases mediaUri with
    | none => exact ⟨rfl, Nat.zero_le 1⟩
    | some u =>
      by_cases hi : isIdbUri u = false
      · simp [useResolvedMediaUrlRun, hi]
      · cases c with
        | true => simp [useResolvedMediaUrlRun, hi]
        | false =>
          cases hst : store (u.drop 4) with
          | none => simp [useResolvedMediaUrlRun, hi, hst]
          | some b => simp [useResolvedMediaUrlRun, hi, hst]
  obtain ⟨ht, mt, mu, stf, mkf, tr, cl⟩ := r
  refine ⟨hook.1, hook.2, fun hu => ?_, fun hc => ?_, fun hc => ?_⟩
  · simp [useResolvedMediaUrlRun, hu]
  · cases ht with
    | true => rfl
    | false =>
      cases mt with
      | photo => rfl
      | video =>
        cases hres : resolveVideoUrl stf mkf mu with
        | unresolved => simp [videoThumbRun, hres]
        | plainUrl u =>
          cases cl with
          | duringResolve => exact absurd rfl hc
          | duringThumb => cases tr <;> simp [videoThumbRun, hres]
          | afterDone => cases tr <;> simp [videoThumbRun, hres]
        | ownedUrl u =>
          cases cl with
          | duringResolve => exact absurd rfl hc
          | duringThumb => simp [videoThumbRun, hres]
          | afterDone => cases tr <;> simp [videoThumbRun, hres]
  · cases ht with
    | true => exact ⟨rfl, rfl⟩
    | false =>
      cases mt with
      | photo => exact ⟨rfl, rfl⟩
      | video =>
        cases hres : resolveVideoUrl stf mkf mu with
        | unresolved => simp [videoThumbRun, hres]
        | plainUrl u =>
          cases cl with
          | afterDone => exact absurd rfl hc
          | duringResolve => cases tr <;> simp [videoThumbRun, hres]
          | duringThumb => cases tr <;> simp [videoThumbRun, hres]
        | ownedUrl u =>
          cases cl with
          | afterDone => exact absurd rfl hc
          | duringResolve => simp [videoThumbRun, hres]
          | duringThumb => simp [videoThumbRun, hres]

/-- C8: resolving an idb: media reference whose payload is absent from the
blob store publishes the explicit unavailable value (null) without throwing,
with a single warning as the only side effect (nothing minted, nothing
revoked), and the underlying getMedia itself returns an explicit null for a
missing key rather than an error. -/
theorem missing_blob_resolves_unavailable (store : String → Option String)
    (mkUrl : String → String) (uri : String)
    (hu : isIdbUri uri = true) (hm : store (uri.drop 4) = none) :
    getMedia store false (uri.drop 4) = Except.ok none ∧
    useResolvedMediaUrlRun store mkUrl (some uri) false
      = ⟨some none, 1, 0, 0⟩ := by
  constructor
  · simp [getMedia, hm]
  · simp [useResolvedMediaUrlRun, hu, hm]

/-- C8 witness: the missing-key scenario at the concrete reference
idb:missing-key over an empty blob store. -/
theorem missing_blob_resolves_unavailable_witness :
    getMedia (fun _ => none) false ("idb:missing-key".drop 4)
        = Except.ok none ∧
    useResolvedMediaUrlRun (fun _ => none) (fun b => b)
        (some "idb:missing-key") false
      = ⟨some none, 1, 0, 0⟩ :=
  missing_blob_resolves_unavailable (fun _ => none) (fun b => b)
    "idb:missing-key" (by decide) rfl

end Ponto
